import Mathlib

/-!
Verification of the `psr-3-logger-for-python` repository (src/__init__.py):
a shallow embedding of `SimpleLogger` / `SimpleLoggerProxy` and proofs of
the specification claims about them.
-/

/-- Python values that can appear in a `context` or `extra` payload.
`obj` stands for an arbitrary Python object with no JSON encoding
(e.g. `object()`); every other constructor is JSON-serializable. -/
inductive PyVal : Type where
  | str (s : String)
  | int (n : Int)
  | bool (b : Bool)
  | none
  | list (xs : List PyVal)
  | dict (kvs : List (String × PyVal))
  | obj (name : String)
deriving Repr

/-- JSON string escaping as performed by `json.dumps` on the characters the
repository can meet: backslash, double quote and the common control chars. -/
def jsonEscapeChar (c : Char) : String :=
  if c = '\\' then "\\\\"
  else if c = '"' then "\\\""
  else if c = '\n' then "\\n"
  else if c = '\t' then "\\t"
  else if c = '\r' then "\\r"
  else String.singleton c

def jsonEscape (s : String) : String :=
  String.join (s.data.map jsonEscapeChar)

/-- Comma-space join, the default item separator of `json.dumps`
and of Python `repr` for containers. -/
def joinComma (parts : List String) : String :=
  String.intercalate ", " parts

mutual
/-- `json.dumps` with CPython default arguments, modelled as a partial
function: `none` models the `TypeError` raised on a non-serializable value. -/
def jsonDumps : PyVal → Option String
  | .str s => some ("\"" ++ jsonEscape s ++ "\"")
  | .int n => some (toString n)
  | .bool b => some (if b then "true" else "false")
  | .none => some "null"
  | .list xs =>
      match jsonDumpsList xs with
      | Option.none => Option.none
      | some parts => some ("[" ++ joinComma parts ++ "]")
  | .dict kvs =>
      match jsonDumpsPairs kvs with
      | Option.none => Option.none
      | some parts => some ("\x7b" ++ joinComma parts ++ "\x7d")
  | .obj _ => Option.none

def jsonDumpsList : List PyVal → Option (List String)
  | [] => some []
  | x :: xs =>
      match jsonDumps x, jsonDumpsList xs with
      | some s, some rest => some (s :: rest)
      | _, _ => Option.none

def jsonDumpsPairs : List (String × PyVal) → Option (List String)
  | [] => some []
  | (k, v) :: kvs =>
      match jsonDumps v, jsonDumpsPairs kvs with
      | some s, some rest => some (("\"" ++ jsonEscape k ++ "\": " ++ s) :: rest)
      | _, _ => Option.none
end

mutual
/-- Python `repr` restricted to the payload values above (string quoting
kept simple: the repository never puts quotes inside `extra` payloads). -/
def pyRepr : PyVal → String
  | .str s => "\x27" ++ s ++ "\x27"
  | .int n => toString n
  | .bool b => if b then "True" else "False"
  | .none => "None"
  | .list xs => "[" ++ joinComma (pyReprList xs) ++ "]"
  | .dict kvs => "\x7b" ++ joinComma (pyReprPairs kvs) ++ "\x7d"
  | .obj name => "<" ++ name ++ ">"

def pyReprList : List PyVal → List String
  | [] => []
  | x :: xs => pyRepr x :: pyReprList xs

def pyReprPairs : List (String × PyVal) → List String
  | [] => []
  | (k, v) :: kvs => ("\x27" ++ k ++ "\x27: " ++ pyRepr v) :: pyReprPairs kvs
end

/-- Python `str()`, as invoked by the `!s` conversion in the format string:
identity on strings, `repr` on containers and the rest. -/
def pyStr : PyVal → String
  | .str s => s
  | v => pyRepr v

/-- `str.lower()` as used on the channel name (character-wise lowering). -/
def pyLower (s : String) : String :=
  String.mk (s.data.map Char.toLower)

/-- `str.upper()` as used on the level tag (character-wise raising). -/
def pyUpper (s : String) : String :=
  String.mk (s.data.map Char.toUpper)

/-- The default value substituted by `write` for an omitted (`None`)
`context` or `extra` argument: the empty Python list `[]`. -/
def orEmptyList : Option PyVal → PyVal
  | Option.none => .list []
  | some v => v

/-- A wall-clock instant, the result of `datetime.datetime.now()`. -/
structure DateTime where
  year : Nat
  month : Nat
  day : Nat
  hour : Nat
  minute : Nat
  second : Nat
deriving Repr, DecidableEq

def pad2 (n : Nat) : String :=
  if n < 10 then "0" ++ toString n else toString n

def pad4 (n : Nat) : String :=
  if n < 10 then "000" ++ toString n
  else if n < 100 then "00" ++ toString n
  else if n < 1000 then "0" ++ toString n
  else toString n

/-- `strftime('%Y-%m-%d %H:%M:%S')` on a `DateTime`. -/
def strftimeYmdHMS (t : DateTime) : String :=
  pad4 t.year ++ "-" ++ pad2 t.month ++ "-" ++ pad2 t.day ++ " " ++
    pad2 t.hour ++ ":" ++ pad2 t.minute ++ ":" ++ pad2 t.second

/-- The Python exceptions the repository can raise. -/
inductive PyErr : Type where
  | oserror
  | valueError
  | typeError
  | runtimeError
  | attributeError
deriving Repr, DecidableEq

/-- An open Python text file: `onDisk` is what has been flushed to disk,
`pending` what sits in the userspace buffer, `closed` the close flag. -/
structure FileHandle where
  onDisk : String
  pending : String
  closed : Bool
deriving Repr, DecidableEq

/-- `fp.write(s)`: raises `ValueError` on a closed file, otherwise buffers. -/
def FileHandle.writeStr (f : FileHandle) (s : String) : Except PyErr FileHandle :=
  if f.closed then .error .valueError
  else .ok (FileHandle.mk f.onDisk (f.pending ++ s) false)

/-- `fp.flush()`: raises `ValueError` on a closed file, otherwise moves the
buffer to disk. -/
def FileHandle.flush (f : FileHandle) : Except PyErr FileHandle :=
  if f.closed then .error .valueError
  else .ok (FileHandle.mk (f.onDisk ++ f.pending) "" false)

/-- `fp.close()`: flushes the buffer and sets the close flag. -/
def FileHandle.close (f : FileHandle) : FileHandle :=
  FileHandle.mk (f.onDisk ++ f.pending) "" true

/-- A `SimpleLoggerProxy` instance: its bound channel name plus an
allocation identifier standing for Python object identity. -/
structure Proxy where
  channel : String
  id : Nat
deriving Repr, DecidableEq

/-- The mutable state of a `SimpleLogger` (the Root Logger): the file
handle, the `_proxy_registry` dict in insertion order, and the next
fresh object identity. -/
structure RootState where
  fp : FileHandle
  proxyRegistry : List (String × Proxy)
  nextId : Nat
deriving Repr, DecidableEq

/-- `channel in self._proxy_registry` / `self._proxy_registry[channel]`:
exact, case-sensitive key lookup in the dict. -/
def lookupChannel : List (String × Proxy) → String → Option Proxy
  | [], _ => Option.none
  | kv :: rest, c => if kv.1 = c then some kv.2 else lookupChannel rest c

namespace SimpleLogger

def EMERGENCY : String := "EMERGENCY"
def ALERT : String := "ALERT"
def CRITICAL : String := "CRITICAL"
def ERROR : String := "ERROR"
def WARNING : String := "WARNING"
def NOTICE : String := "INFO"
def INFO : String := "INFO"
def DEBUG : String := "DEBUG"

def DEFAULT_CHANNEL : String := "app"

/-- `SimpleLogger.fork`: return the registered proxy for `channel` if one
exists, otherwise construct, register and return a fresh one. -/
def fork (s : RootState) (channel : String) : Proxy × RootState :=
  match lookupChannel s.proxyRegistry channel with
  | some p => (p, s)
  | Option.none =>
      let p : Proxy := Proxy.mk channel s.nextId
      (p, RootState.mk s.fp (s.proxyRegistry ++ [(channel, p)]) (s.nextId + 1))

/-- The text of one log entry, exactly as the `format` call in `write`
builds it (the `{date!s}` field is already rendered to `date`). -/
def logEntryStr (date channel level message contextJson : String) (extra : PyVal) : String :=
  "[" ++ date ++ "] " ++ pyLower channel ++ "." ++ pyUpper level ++ ": " ++
    message ++ " " ++ contextJson ++ " " ++ pyStr extra ++ "\n"

/-- `SimpleLogger.write`: default the omitted arguments to `[]`, build the
log entry (running `json.dumps` on the context), then `fp.write` it and
`fp.flush`.  The wall clock read by `datetime.datetime.now()` is the
explicit `now` argument. -/
def write (s : RootState) (now : DateTime) (channel level message : String)
    (context extra : Option PyVal) : Except PyErr RootState :=
  let contextV := orEmptyList context
  let extraV := orEmptyList extra
  match jsonDumps contextV with
  | Option.none => .error .typeError
  | some cj =>
      let entry := logEntryStr (strftimeYmdHMS now) channel level message cj extraV
      match s.fp.writeStr entry with
      | .error e => .error e
      | .ok fp1 =>
          match fp1.flush with
          | .error e => .error e
          | .ok fp2 => .ok (RootState.mk fp2 s.proxyRegistry s.nextId)

end SimpleLogger

namespace SimpleLoggerProxy

/-- `SimpleLoggerProxy.fork`: proxy call to the owning root's `fork`. -/
def fork (s : RootState) (_self : Proxy) (channel : String) : Proxy × RootState :=
  SimpleLogger.fork s channel

/-- `SimpleLoggerProxy.log`: proxy call to the owning root's `write`,
supplying the proxy's own bound channel name; `extra` is not passed. -/
def log (s : RootState) (self : Proxy) (now : DateTime) (level message : String)
    (context : Option PyVal) : Except PyErr RootState :=
  SimpleLogger.write s now self.channel level message context Option.none

end SimpleLoggerProxy

namespace SimpleLogger

/-- `SimpleLogger.log`: fork the default channel `'app'` and call `log` on
the returned proxy (which forwards to `write`). -/
def log (s : RootState) (now : DateTime) (level message : String)
    (context : Option PyVal) : Except PyErr RootState :=
  let r := fork s DEFAULT_CHANNEL
  SimpleLoggerProxy.log r.2 r.1 now level message context

def emergency (s : RootState) (now : DateTime) (message : String)
    (context : Option PyVal) : Except PyErr RootState :=
  log s now EMERGENCY message context

def alert (s : RootState) (now : DateTime) (message : String)
    (context : Option PyVal) : Except PyErr RootState :=
  log s now ALERT message context

def critical (s : RootState) (now : DateTime) (message : String)
    (context : Option PyVal) : Except PyErr RootState :=
  log s now CRITICAL message context

def error (s : RootState) (now : DateTime) (message : String)
    (context : Option PyVal) : Except PyErr RootState :=
  log s now ERROR message context

def warning (s : RootState) (now : DateTime) (message : String)
    (context : Option PyVal) : Except PyErr RootState :=
  log s now WARNING message context

def notice (s : RootState) (now : DateTime) (message : String)
    (context : Option PyVal) : Except PyErr RootState :=
  log s now NOTICE message context

def info (s : RootState) (now : DateTime) (message : String)
    (context : Option PyVal) : Except PyErr RootState :=
  log s now INFO message context

def debug (s : RootState) (now : DateTime) (message : String)
    (context : Option PyVal) : Except PyErr RootState :=
  log s now DEBUG message context

end SimpleLogger

/-- The filesystem situation at the path handed to the constructor. -/
structure DiskFile where
  pathExists : Bool
  content : String
  dirExists : Bool
  writable : Bool
deriving Repr, DecidableEq

/-- Python `open(filename, mode)` for the two modes `__init__` can pick:
`'a'` keeps the existing bytes, `'w'` truncates; both create a missing
file; an absent directory or an unwritable path raises `OSError`. -/
inductive OpenMode : Type where
  | a
  | w
deriving Repr, DecidableEq

def pyOpen (d : DiskFile) (mode : OpenMode) : Except PyErr FileHandle :=
  if d.dirExists = false then .error .oserror
  else if d.writable = false then .error .oserror
  else
    match mode with
    | .a => .ok (FileHandle.mk (if d.pathExists then d.content else "") "" false)
    | .w => .ok (FileHandle.mk "" "" false)

namespace SimpleLogger

/-- `SimpleLogger.__init__`: pick append mode when the path exists and
write mode otherwise, open the file, start with an empty
`_proxy_registry`, then `fork` the default channel `'app'`. -/
def init (d : DiskFile) : Except PyErr RootState :=
  let mode := if d.pathExists then OpenMode.a else OpenMode.w
  match pyOpen d mode with
  | .error e => .error e
  | .ok fp => .ok (fork (RootState.mk fp [] 0) DEFAULT_CHANNEL).2

/-- `SimpleLogger.__del__`: close the file if still open, then delete the
registry keys while iterating over the dict.  CPython's dict iterator
yields the first key, the `del` shrinks the dict, and the next call into
the iterator raises `RuntimeError` (size changed during iteration) — so
exactly one entry is removed whenever the registry is non-empty. -/
def del (s : RootState) : RootState × Option PyErr :=
  let fp := if s.fp.closed then s.fp else s.fp.close
  match s.proxyRegistry with
  | [] => (RootState.mk fp [] s.nextId, Option.none)
  | _ :: rest => (RootState.mk fp rest s.nextId, some PyErr.runtimeError)

end SimpleLogger

namespace SimpleLoggerProxy

/-- `SimpleLoggerProxy.__del__`: `pass` — no effect, no error. -/
def del (_self : Proxy) : Option PyErr :=
  Option.none

/-- The leveled methods a proxy inherits from `SimpleLogger`: each invokes
`self.log` — which dynamic dispatch resolves to `SimpleLoggerProxy.log` —
with the class level constant. -/
def emergency (s : RootState) (self : Proxy) (now : DateTime) (message : String)
    (context : Option PyVal) : Except PyErr RootState :=
  log s self now SimpleLogger.EMERGENCY message context

def alert (s : RootState) (self : Proxy) (now : DateTime) (message : String)
    (context : Option PyVal) : Except PyErr RootState :=
  log s self now SimpleLogger.ALERT message context

def critical (s : RootState) (self : Proxy) (now : DateTime) (message : String)
    (context : Option PyVal) : Except PyErr RootState :=
  log s self now SimpleLogger.CRITICAL message context

def error (s : RootState) (self : Proxy) (now : DateTime) (message : String)
    (context : Option PyVal) : Except PyErr RootState :=
  log s self now SimpleLogger.ERROR message context

def warning (s : RootState) (self : Proxy) (now : DateTime) (message : String)
    (context : Option PyVal) : Except PyErr RootState :=
  log s self now SimpleLogger.WARNING message context

def notice (s : RootState) (self : Proxy) (now : DateTime) (message : String)
    (context : Option PyVal) : Except PyErr RootState :=
  log s self now SimpleLogger.NOTICE message context

def info (s : RootState) (self : Proxy) (now : DateTime) (message : String)
    (context : Option PyVal) : Except PyErr RootState :=
  log s self now SimpleLogger.INFO message context

def debug (s : RootState) (self : Proxy) (now : DateTime) (message : String)
    (context : Option PyVal) : Except PyErr RootState :=
  log s self now SimpleLogger.DEBUG message context

/-- The inherited `SimpleLogger.write` body executed with a proxy as
`self`: the proxy's constructor never sets `self.fp`, so the body runs
the argument defaulting and the `format` call (including `json.dumps` on
the context, which can raise `TypeError` first) and then the attribute
access `self.fp` raises `AttributeError`. -/
def write (_self : Proxy) (_now : DateTime) (_channel _level _message : String)
    (context _extra : Option PyVal) : Except PyErr Unit :=
  let contextV := orEmptyList context
  match jsonDumps contextV with
  | Option.none => .error .typeError
  | some _ => .error .attributeError

end SimpleLoggerProxy

/-- Number of newline characters in a string (for the one-line property). -/
def countNl (s : String) : Nat :=
  s.data.count '\n'

/-- Sample wall-clock instant used by concrete witnesses. -/
def sampleNow : DateTime :=
  DateTime.mk 2024 1 2 3 4 5

/-- A root state with an open empty file and an empty registry. -/
def stEmpty : RootState :=
  RootState.mk (FileHandle.mk "" "" false) [] 0

/-- The root state produced by constructing on a fresh path. -/
def stApp : RootState :=
  RootState.mk (FileHandle.mk "" "" false) [("app", Proxy.mk "app" 0)] 1

/-- A root state whose file has been closed. -/
def stClosed : RootState :=
  RootState.mk (FileHandle.mk "" "" true) [("app", Proxy.mk "app" 0)] 1

/-- A context payload that `json.dumps` cannot serialize. -/
def badCtx : PyVal :=
  PyVal.dict [("k", PyVal.obj "o")]

theorem String.data_append_eq (a b : String) : (a ++ b).data = a.data ++ b.data :=
  rfl

theorem countNl_append (a b : String) : countNl (a ++ b) = countNl a + countNl b := by
  simp [countNl, String.data_append_eq, List.count_append]

theorem lookupChannel_append_self (l : List (String × Proxy)) (c : String) (p : Proxy)
    (h : lookupChannel l c = Option.none) :
    lookupChannel (l ++ [(c, p)]) c = some p := by
  induction l with
  | nil => simp [lookupChannel]
  | cons kv rest ih =>
      by_cases hk : kv.1 = c
      · rw [lookupChannel] at h
        simp [hk] at h
      · rw [List.cons_append, lookupChannel] at *
        simp only [if_neg hk] at h ⊢
        exact ih h

theorem SimpleLogger.fork_found (s : RootState) (c : String) (p : Proxy)
    (h : lookupChannel s.proxyRegistry c = some p) :
    SimpleLogger.fork s c = (p, s) := by
  simp [SimpleLogger.fork, h]

theorem SimpleLogger.write_ok (s : RootState) (now : DateTime)
    (channel level message : String) (context extra : Option PyVal) (cj : String)
    (hopen : s.fp.closed = false) (hpend : s.fp.pending = "")
    (hctx : jsonDumps (orEmptyList context) = some cj) :
    SimpleLogger.write s now channel level message context extra =
      .ok (RootState.mk
        (FileHandle.mk
          (s.fp.onDisk ++
            SimpleLogger.logEntryStr (strftimeYmdHMS now) channel level message cj
              (orEmptyList extra))
          "" false)
        s.proxyRegistry s.nextId) := by
  simp [SimpleLogger.write, hctx, FileHandle.writeStr, FileHandle.flush, hopen, hpend]

theorem SimpleLoggerProxy.proxyLogWrites (s : RootState) (self : Proxy) (now : DateTime)
    (level message : String) (context : Option PyVal) (cj : String)
    (hopen : s.fp.closed = false) (hpend : s.fp.pending = "")
    (hctx : jsonDumps (orEmptyList context) = some cj) :
    SimpleLoggerProxy.log s self now level message context =
      .ok (RootState.mk
        (FileHandle.mk
          (s.fp.onDisk ++
            SimpleLogger.logEntryStr (strftimeYmdHMS now) self.channel level message cj
              (PyVal.list []))
          "" false)
        s.proxyRegistry s.nextId) := by
  rw [SimpleLoggerProxy.log]
  exact SimpleLogger.write_ok s now self.channel level message context Option.none cj hopen hpend hctx

theorem SimpleLogger.rootLogWrites (s : RootState) (now : DateTime)
    (level message : String) (context : Option PyVal) (cj : String) (p : Proxy)
    (happ : lookupChannel s.proxyRegistry "app" = some p) (hpc : p.channel = "app")
    (hopen : s.fp.closed = false) (hpend : s.fp.pending = "")
    (hctx : jsonDumps (orEmptyList context) = some cj) :
    SimpleLogger.log s now level message context =
      .ok (RootState.mk
        (FileHandle.mk
          (s.fp.onDisk ++
            SimpleLogger.logEntryStr (strftimeYmdHMS now) "app" level message cj
              (PyVal.list []))
          "" false)
        s.proxyRegistry s.nextId) := by
  rw [SimpleLogger.log]
  have hf : SimpleLogger.fork s SimpleLogger.DEFAULT_CHANNEL = (p, s) :=
    SimpleLogger.fork_found s "app" p happ
  rw [hf]
  rw [← hpc]
  exact SimpleLoggerProxy.proxyLogWrites s p now level message context cj hopen hpend hctx

/-- Claim C1: a successful `SimpleLogger.write` appends exactly one log
entry to the file, of the exact shape
`[<timestamp>] <channel lowercased>.<level uppercased>: <message>
<context JSON> <extra str()>\n` with the message inserted verbatim, and
the flush happens before the call returns (the buffer is left empty);
when every rendered component is newline-free the appended text contains
exactly one newline, i.e. exactly one line. -/
theorem c1_write_appends_exact_line (s : RootState) (now : DateTime)
    (channel level message : String) (context extra : Option PyVal) (cj : String)
    (hopen : s.fp.closed = false) (hpend : s.fp.pending = "")
    (hctx : jsonDumps (orEmptyList context) = some cj) :
    SimpleLogger.write s now channel level message context extra =
      .ok (RootState.mk
        (FileHandle.mk
          (s.fp.onDisk ++
            SimpleLogger.logEntryStr (strftimeYmdHMS now) channel level message cj
              (orEmptyList extra))
          "" false)
        s.proxyRegistry s.nextId) ∧
    SimpleLogger.logEntryStr (strftimeYmdHMS now) channel level message cj (orEmptyList extra) =
      "[" ++ strftimeYmdHMS now ++ "] " ++ pyLower channel ++ "." ++ pyUpper level ++ ": " ++
        message ++ " " ++ cj ++ " " ++ pyStr (orEmptyList extra) ++ "\n" ∧
    (countNl (strftimeYmdHMS now) = 0 → countNl (pyLower channel) = 0 →
      countNl (pyUpper level) = 0 → countNl message = 0 → countNl cj = 0 →
      countNl (pyStr (orEmptyList extra)) = 0 →
      countNl (SimpleLogger.logEntryStr (strftimeYmdHMS now) channel level message cj
        (orEmptyList extra)) = 1) := by
  refine ⟨SimpleLogger.write_ok s now channel level message context extra cj hopen hpend hctx,
    rfl, ?_⟩
  intro h1 h2 h3 h4 h5 h6
  simp [SimpleLogger.logEntryStr, countNl_append, h1, h2, h3, h4, h5, h6]
  decide

theorem c1_witness :
    SimpleLogger.write stApp sampleNow "App" "error" "boom" Option.none Option.none =
      .ok (RootState.mk
        (FileHandle.mk "[2024-01-02 03:04:05] app.ERROR: boom [] []\n" "" false)
        [("app", Proxy.mk "app" 0)] 1) ∧
    countNl (SimpleLogger.logEntryStr "2024-01-02 03:04:05" "App" "error" "boom" "[]"
      (PyVal.list [])) = 1 := by
  have h := c1_write_appends_exact_line stApp sampleNow "App" "error" "boom"
    Option.none Option.none "[]" rfl rfl rfl
  exact ⟨by rw [h.1]; rfl,
    h.2.2 (by decide) (by decide) (by decide) (by decide) (by decide) (by decide)⟩

/-- Claim C2: `fork` is idempotent with identity stability: the second
`fork` with the same name returns the very proxy registered by the first
and leaves the state unchanged; a first `fork` of an unregistered name
registers a fresh proxy bound to that exact (case-sensitive) name, and a
`fork` of a registered name returns the registered proxy unchanged. -/
theorem c2_fork_idempotent (s : RootState) (c : String) :
    SimpleLogger.fork (SimpleLogger.fork s c).2 c = SimpleLogger.fork s c ∧
    (∀ p, lookupChannel s.proxyRegistry c = some p → SimpleLogger.fork s c = (p, s)) ∧
    (lookupChannel s.proxyRegistry c = Option.none →
      (SimpleLogger.fork s c).1.channel = c ∧
      (SimpleLogger.fork s c).1.id = s.nextId ∧
      (SimpleLogger.fork s c).2.proxyRegistry =
        s.proxyRegistry ++ [(c, (SimpleLogger.fork s c).1)] ∧
      lookupChannel (SimpleLogger.fork s c).2.proxyRegistry c =
        some (SimpleLogger.fork s c).1) := by
  cases h : lookupChannel s.proxyRegistry c with
  | some p => simp [SimpleLogger.fork, h]
  | none => simp [SimpleLogger.fork, h, lookupChannel_append_self _ _ _ h]

theorem c2_witness :
    SimpleLogger.fork (SimpleLogger.fork stEmpty "db").2 "db" = SimpleLogger.fork stEmpty "db" ∧
    (SimpleLogger.fork stEmpty "db").1.channel = "db" := by
  have h := c2_fork_idempotent stEmpty "db"
  exact ⟨h.1, (h.2.2 rfl).1⟩

/-- Claim C3: a proxy's `fork` is exactly the root's `fork` (single
registry owned by the root), and a proxy's `log` is exactly the root's
`write` with the proxy's bound channel name: it appends one entry tagged
with that channel. -/
theorem c3_proxy_forwards (s : RootState) (self : Proxy) (n : String) (now : DateTime)
    (level message : String) (context : Option PyVal) (cj : String)
    (hopen : s.fp.closed = false) (hpend : s.fp.pending = "")
    (hctx : jsonDumps (orEmptyList context) = some cj) :
    SimpleLoggerProxy.fork s self n = SimpleLogger.fork s n ∧
    SimpleLoggerProxy.log s self now level message context =
      SimpleLogger.write s now self.channel level message context Option.none ∧
    SimpleLoggerProxy.log s self now level message context =
      .ok (RootState.mk
        (FileHandle.mk
          (s.fp.onDisk ++
            SimpleLogger.logEntryStr (strftimeYmdHMS now) self.channel level message cj
              (PyVal.list []))
          "" false)
        s.proxyRegistry s.nextId) :=
  ⟨rfl, rfl, SimpleLoggerProxy.proxyLogWrites s self now level message context cj hopen hpend hctx⟩

theorem c3_witness :
    SimpleLoggerProxy.fork stApp (Proxy.mk "db" 7) "x" = SimpleLogger.fork stApp "x" ∧
    SimpleLoggerProxy.log stApp (Proxy.mk "db" 7) sampleNow "CRITICAL" "payment failed"
        (some (PyVal.dict [("order_id", PyVal.int 42)])) =
      .ok (RootState.mk
        (FileHandle.mk
          "[2024-01-02 03:04:05] db.CRITICAL: payment failed \x7b\"order_id\": 42\x7d []\n"
          "" false)
        [("app", Proxy.mk "app" 0)] 1) := by
  have h := c3_proxy_forwards stApp (Proxy.mk "db" 7) "x" sampleNow "CRITICAL"
    "payment failed" (some (PyVal.dict [("order_id", PyVal.int 42)]))
    "\x7b\"order_id\": 42\x7d" rfl rfl rfl
  exact ⟨h.1, by rw [h.2.2]; rfl⟩

/-- Claim C4: every leveled call, on the root or on a proxy, emits the
level tag of the fixed mapping (EMERGENCY, ALERT, CRITICAL, ERROR,
WARNING, NOTICE→INFO, INFO, DEBUG) in the output line; `write` renders
the tag through `upper()`, which is the identity on each mapped tag, so
the emitted tag is exactly the mapped constant — in particular `notice`
emits `INFO`. -/
theorem c4_level_tag_mapping (s : RootState) (self : Proxy) (now : DateTime)
    (message : String) (context : Option PyVal) (cj : String) (p : Proxy)
    (happ : lookupChannel s.proxyRegistry "app" = some p) (hpc : p.channel = "app")
    (hopen : s.fp.closed = false) (hpend : s.fp.pending = "")
    (hctx : jsonDumps (orEmptyList context) = some cj) :
    SimpleLogger.emergency s now message context =
      .ok (RootState.mk (FileHandle.mk (s.fp.onDisk ++ SimpleLogger.logEntryStr
        (strftimeYmdHMS now) "app" "EMERGENCY" message cj (PyVal.list [])) "" false)
        s.proxyRegistry s.nextId) ∧
    SimpleLogger.alert s now message context =
      .ok (RootState.mk (FileHandle.mk (s.fp.onDisk ++ SimpleLogger.logEntryStr
        (strftimeYmdHMS now) "app" "ALERT" message cj (PyVal.list [])) "" false)
        s.proxyRegistry s.nextId) ∧
    SimpleLogger.critical s now message context =
      .ok (RootState.mk (FileHandle.mk (s.fp.onDisk ++ SimpleLogger.logEntryStr
        (strftimeYmdHMS now) "app" "CRITICAL" message cj (PyVal.list [])) "" false)
        s.proxyRegistry s.nextId) ∧
    SimpleLogger.error s now message context =
      .ok (RootState.mk (FileHandle.mk (s.fp.onDisk ++ SimpleLogger.logEntryStr
        (strftimeYmdHMS now) "app" "ERROR" message cj (PyVal.list [])) "" false)
        s.proxyRegistry s.nextId) ∧
    SimpleLogger.warning s now message context =
      .ok (RootState.mk (FileHandle.mk (s.fp.onDisk ++ SimpleLogger.logEntryStr
        (strftimeYmdHMS now) "app" "WARNING" message cj (PyVal.list [])) "" false)
        s.proxyRegistry s.nextId) ∧
    SimpleLogger.notice s now message context =
      .ok (RootState.mk (FileHandle.mk (s.fp.onDisk ++ SimpleLogger.logEntryStr
        (strftimeYmdHMS now) "app" "INFO" message cj (PyVal.list [])) "" false)
        s.proxyRegistry s.nextId) ∧
    SimpleLogger.info s now message context =
      .ok (RootState.mk (FileHandle.mk (s.fp.onDisk ++ SimpleLogger.logEntryStr
        (strftimeYmdHMS now) "app" "INFO" message cj (PyVal.list [])) "" false)
        s.proxyRegistry s.nextId) ∧
    SimpleLogger.debug s now message context =
      .ok (RootState.mk (FileHandle.mk (s.fp.onDisk ++ SimpleLogger.logEntryStr
        (strftimeYmdHMS now) "app" "DEBUG" message cj (PyVal.list [])) "" false)
        s.proxyRegistry s.nextId) ∧
    SimpleLoggerProxy.emergency s self now message context =
      .ok (RootState.mk (FileHandle.mk (s.fp.onDisk ++ SimpleLogger.logEntryStr
        (strftimeYmdHMS now) self.channel "EMERGENCY" message cj (PyVal.list [])) "" false)
        s.proxyRegistry s.nextId) ∧
    SimpleLoggerProxy.alert s self now message context =
      .ok (RootState.mk (FileHandle.mk (s.fp.onDisk ++ SimpleLogger.logEntryStr
        (strftimeYmdHMS now) self.channel "ALERT" message cj (PyVal.list [])) "" false)
        s.proxyRegistry s.nextId) ∧
    SimpleLoggerProxy.critical s self now message context =
      .ok (RootState.mk (FileHandle.mk (s.fp.onDisk ++ SimpleLogger.logEntryStr
        (strftimeYmdHMS now) self.channel "CRITICAL" message cj (PyVal.list [])) "" false)
        s.proxyRegistry s.nextId) ∧
    SimpleLoggerProxy.error s self now message context =
      .ok (RootState.mk (FileHandle.mk (s.fp.onDisk ++ SimpleLogger.logEntryStr
        (strftimeYmdHMS now) self.channel "ERROR" message cj (PyVal.list [])) "" false)
        s.proxyRegistry s.nextId) ∧
    SimpleLoggerProxy.warning s self now message context =
      .ok (RootState.mk (FileHandle.mk (s.fp.onDisk ++ SimpleLogger.logEntryStr
        (strftimeYmdHMS now) self.channel "WARNING" message cj (PyVal.list [])) "" false)
        s.proxyRegistry s.nextId) ∧
    SimpleLoggerProxy.notice s self now message context =
      .ok (RootState.mk (FileHandle.mk (s.fp.onDisk ++ SimpleLogger.logEntryStr
        (strftimeYmdHMS now) self.channel "INFO" message cj (PyVal.list [])) "" false)
        s.proxyRegistry s.nextId) ∧
    SimpleLoggerProxy.info s self now message context =
      .ok (RootState.mk (FileHandle.mk (s.fp.onDisk ++ SimpleLogger.logEntryStr
        (strftimeYmdHMS now) self.channel "INFO" message cj (PyVal.list [])) "" false)
        s.proxyRegistry s.nextId) ∧
    SimpleLoggerProxy.debug s self now message context =
      .ok (RootState.mk (FileHandle.mk (s.fp.onDisk ++ SimpleLogger.logEntryStr
        (strftimeYmdHMS now) self.channel "DEBUG" message cj (PyVal.list [])) "" false)
        s.proxyRegistry s.nextId) ∧
    (pyUpper SimpleLogger.EMERGENCY = "EMERGENCY" ∧ pyUpper SimpleLogger.ALERT = "ALERT" ∧
      pyUpper SimpleLogger.CRITICAL = "CRITICAL" ∧ pyUpper SimpleLogger.ERROR = "ERROR" ∧
      pyUpper SimpleLogger.WARNING = "WARNING" ∧ pyUpper SimpleLogger.NOTICE = "INFO" ∧
      pyUpper SimpleLogger.INFO = "INFO" ∧ pyUpper SimpleLogger.DEBUG = "DEBUG") :=
  ⟨SimpleLogger.rootLogWrites s now "EMERGENCY" message context cj p happ hpc hopen hpend hctx,
   SimpleLogger.rootLogWrites s now "ALERT" message context cj p happ hpc hopen hpend hctx,
   SimpleLogger.rootLogWrites s now "CRITICAL" message context cj p happ hpc hopen hpend hctx,
   SimpleLogger.rootLogWrites s now "ERROR" message context cj p happ hpc hopen hpend hctx,
   SimpleLogger.rootLogWrites s now "WARNING" message context cj p happ hpc hopen hpend hctx,
   SimpleLogger.rootLogWrites s now "INFO" message context cj p happ hpc hopen hpend hctx,
   SimpleLogger.rootLogWrites s now "INFO" message context cj p happ hpc hopen hpend hctx,
   SimpleLogger.rootLogWrites s now "DEBUG" message context cj p happ hpc hopen hpend hctx,
   SimpleLoggerProxy.proxyLogWrites s self now "EMERGENCY" message context cj hopen hpend hctx,
   SimpleLoggerProxy.proxyLogWrites s self now "ALERT" message context cj hopen hpend hctx,
   SimpleLoggerProxy.proxyLogWrites s self now "CRITICAL" message context cj hopen hpend hctx,
   SimpleLoggerProxy.proxyLogWrites s self now "ERROR" message context cj hopen hpend hctx,
   SimpleLoggerProxy.proxyLogWrites s self now "WARNING" message context cj hopen hpend hctx,
   SimpleLoggerProxy.proxyLogWrites s self now "INFO" message context cj hopen hpend hctx,
   SimpleLoggerProxy.proxyLogWrites s self now "INFO" message context cj hopen hpend hctx,
   SimpleLoggerProxy.proxyLogWrites s self now "DEBUG" message context cj hopen hpend hctx,
   by decide⟩

theorem c4_witness :
    SimpleLogger.notice stApp sampleNow "m" Option.none =
      .ok (RootState.mk
        (FileHandle.mk "[2024-01-02 03:04:05] app.INFO: m [] []\n" "" false)
        [("app", Proxy.mk "app" 0)] 1) ∧
    SimpleLoggerProxy.notice stApp (Proxy.mk "db" 7) sampleNow "m" Option.none =
      .ok (RootState.mk
        (FileHandle.mk "[2024-01-02 03:04:05] db.INFO: m [] []\n" "" false)
        [("app", Proxy.mk "app" 0)] 1) := by
  have h := c4_level_tag_mapping stApp (Proxy.mk "db" 7) sampleNow "m" Option.none "[]"
    (Proxy.mk "app" 0) rfl rfl rfl rfl rfl
  exact ⟨by rw [h.2.2.2.2.2.1]; rfl,
    by rw [h.2.2.2.2.2.2.2.2.2.2.2.2.2.1]; rfl⟩

/-- Claim C5: an omitted `context` serializes as the JSON text `[]` (an
empty list, not an empty object), a supplied mapping appears as its JSON
serialization; an omitted `extra` renders as the empty-sequence literal
`[]` via generic string conversion, and a supplied `extra` is rendered by
`str()` and never JSON-encoded (for a mapping the two renderings differ:
single quotes versus JSON double quotes). -/
theorem c5_context_extra_rendering (s : RootState) (now : DateTime)
    (channel level message : String) (extraVal : PyVal)
    (hopen : s.fp.closed = false) (hpend : s.fp.pending = "") :
    jsonDumps (orEmptyList Option.none) = some "[]" ∧
    pyStr (orEmptyList Option.none) = "[]" ∧
    SimpleLogger.write s now channel level message Option.none Option.none =
      .ok (RootState.mk (FileHandle.mk (s.fp.onDisk ++ SimpleLogger.logEntryStr
        (strftimeYmdHMS now) channel level message "[]" (PyVal.list [])) "" false)
        s.proxyRegistry s.nextId) ∧
    jsonDumps (PyVal.dict [("k", PyVal.str "v")]) = some "\x7b\"k\": \"v\"\x7d" ∧
    SimpleLogger.write s now channel level message
        (some (PyVal.dict [("k", PyVal.str "v")])) Option.none =
      .ok (RootState.mk (FileHandle.mk (s.fp.onDisk ++ SimpleLogger.logEntryStr
        (strftimeYmdHMS now) channel level message "\x7b\"k\": \"v\"\x7d" (PyVal.list []))
        "" false) s.proxyRegistry s.nextId) ∧
    SimpleLogger.write s now channel level message Option.none (some extraVal) =
      .ok (RootState.mk (FileHandle.mk (s.fp.onDisk ++ SimpleLogger.logEntryStr
        (strftimeYmdHMS now) channel level message "[]" extraVal) "" false)
        s.proxyRegistry s.nextId) ∧
    pyStr (PyVal.dict [("k", PyVal.str "v")]) = "\x7b\x27k\x27: \x27v\x27\x7d" ∧
    pyStr (PyVal.dict [("k", PyVal.str "v")]) ≠ "\x7b\"k\": \"v\"\x7d" :=
  ⟨rfl, rfl,
   SimpleLogger.write_ok s now channel level message Option.none Option.none "[]"
     hopen hpend rfl,
   rfl,
   SimpleLogger.write_ok s now channel level message
     (some (PyVal.dict [("k", PyVal.str "v")])) Option.none "\x7b\"k\": \"v\"\x7d"
     hopen hpend rfl,
   SimpleLogger.write_ok s now channel level message Option.none (some extraVal) "[]"
     hopen hpend rfl,
   rfl, by decide⟩

theorem c5_witness :
    SimpleLogger.write stApp sampleNow "app" "INFO" "msg" Option.none Option.none =
      .ok (RootState.mk
        (FileHandle.mk "[2024-01-02 03:04:05] app.INFO: msg [] []\n" "" false)
        [("app", Proxy.mk "app" 0)] 1) ∧
    SimpleLogger.write stApp sampleNow "app" "INFO" "msg"
        (some (PyVal.dict [("k", PyVal.str "v")])) Option.none =
      .ok (RootState.mk
        (FileHandle.mk "[2024-01-02 03:04:05] app.INFO: msg \x7b\"k\": \"v\"\x7d []\n" "" false)
        [("app", Proxy.mk "app" 0)] 1) ∧
    SimpleLogger.write stApp sampleNow "app" "INFO" "msg" Option.none
        (some (PyVal.dict [("k", PyVal.str "v")])) =
      .ok (RootState.mk
        (FileHandle.mk "[2024-01-02 03:04:05] app.INFO: msg [] \x7b\x27k\x27: \x27v\x27\x7d\n" "" false)
        [("app", Proxy.mk "app" 0)] 1) := by
  have h := c5_context_extra_rendering stApp sampleNow "app" "INFO" "msg"
    (PyVal.dict [("k", PyVal.str "v")]) rfl rfl
  exact ⟨by rw [h.2.2.1]; rfl, by rw [h.2.2.2.2.1]; rfl, by rw [h.2.2.2.2.2.1]; rfl⟩

/-- Claim C6: immediately after construction — before any explicit `fork`
— the channel `app` is registered in the registry, and `log` on the Root
Logger (reached by every leveled method) delegates to `write` with the
channel `app`. -/
theorem c6_default_channel (d : DiskFile) (s : RootState) (now : DateTime)
    (level message : String) (context : Option PyVal)
    (hinit : SimpleLogger.init d = .ok s) :
    lookupChannel s.proxyRegistry "app" = some (Proxy.mk "app" 0) ∧
    SimpleLogger.log s now level message context =
      SimpleLogger.write s now "app" level message context Option.none ∧
    SimpleLogger.emergency s now message context =
      SimpleLogger.log s now SimpleLogger.EMERGENCY message context ∧
    SimpleLogger.alert s now message context =
      SimpleLogger.log s now SimpleLogger.ALERT message context ∧
    SimpleLogger.critical s now message context =
      SimpleLogger.log s now SimpleLogger.CRITICAL message context ∧
    SimpleLogger.error s now message context =
      SimpleLogger.log s now SimpleLogger.ERROR message context ∧
    SimpleLogger.warning s now message context =
      SimpleLogger.log s now SimpleLogger.WARNING message context ∧
    SimpleLogger.notice s now message context =
      SimpleLogger.log s now SimpleLogger.NOTICE message context ∧
    SimpleLogger.info s now message context =
      SimpleLogger.log s now SimpleLogger.INFO message context ∧
    SimpleLogger.debug s now message context =
      SimpleLogger.log s now SimpleLogger.DEBUG message context := by
  simp only [SimpleLogger.init] at hinit
  cases hop : pyOpen d (if d.pathExists then OpenMode.a else OpenMode.w) with
  | error e => rw [hop] at hinit; exact absurd hinit (by simp)
  | ok fp =>
      rw [hop] at hinit
      simp only [SimpleLogger.fork, SimpleLogger.DEFAULT_CHANNEL, lookupChannel,
        Except.ok.injEq] at hinit
      subst hinit
      refine ⟨by simp [lookupChannel], ?_, rfl, rfl, rfl, rfl, rfl, rfl, rfl, rfl⟩
      simp [SimpleLogger.log, SimpleLogger.DEFAULT_CHANNEL, SimpleLogger.fork,
        lookupChannel, SimpleLoggerProxy.log]

theorem c6_witness :
    lookupChannel stApp.proxyRegistry "app" = some (Proxy.mk "app" 0) ∧
    SimpleLogger.log stApp sampleNow "ERROR" "m" Option.none =
      SimpleLogger.write stApp sampleNow "app" "ERROR" "m" Option.none Option.none := by
  have h := c6_default_channel (DiskFile.mk false "" true true) stApp sampleNow
    "ERROR" "m" Option.none rfl
  exact ⟨h.1, h.2.1⟩

/-- Claim C7: constructing on an existing path opens in append mode and
preserves the pre-existing content (a later `error` call appends after
it, no truncation); constructing on a nonexistent path creates the file
empty; construction fails with `OSError` when the directory is missing or
the path unwritable. -/
theorem c7_construction (d : DiskFile) (now : DateTime) (message : String) :
    (d.dirExists = true → d.writable = true → d.pathExists = true →
      SimpleLogger.init d = .ok (RootState.mk (FileHandle.mk d.content "" false)
        [("app", Proxy.mk "app" 0)] 1)) ∧
    (d.dirExists = true → d.writable = true → d.pathExists = false →
      SimpleLogger.init d = .ok (RootState.mk (FileHandle.mk "" "" false)
        [("app", Proxy.mk "app" 0)] 1)) ∧
    (d.dirExists = false ∨ d.writable = false →
      SimpleLogger.init d = .error PyErr.oserror) ∧
    SimpleLogger.error (RootState.mk (FileHandle.mk d.content "" false)
        [("app", Proxy.mk "app" 0)] 1) now message Option.none =
      .ok (RootState.mk (FileHandle.mk (d.content ++ SimpleLogger.logEntryStr
        (strftimeYmdHMS now) "app" "ERROR" message "[]" (PyVal.list [])) "" false)
        [("app", Proxy.mk "app" 0)] 1) := by
  refine ⟨?_, ?_, ?_, ?_⟩
  · intro h1 h2 h3
    simp [SimpleLogger.init, pyOpen, h1, h2, h3, SimpleLogger.fork,
      SimpleLogger.DEFAULT_CHANNEL, lookupChannel]
  · intro h1 h2 h3
    simp [SimpleLogger.init, pyOpen, h1, h2, h3, SimpleLogger.fork,
      SimpleLogger.DEFAULT_CHANNEL, lookupChannel]
  · intro h
    cases h with
    | inl h1 => simp [SimpleLogger.init, pyOpen, h1]
    | inr h2 => simp [SimpleLogger.init, pyOpen, h2]
  · exact SimpleLogger.rootLogWrites _ now "ERROR" message Option.none "[]" (Proxy.mk "app" 0)
      (by simp [lookupChannel]) rfl rfl rfl rfl

theorem c7_witness :
    SimpleLogger.init (DiskFile.mk true "old line\n" true true) =
      .ok (RootState.mk (FileHandle.mk "old line\n" "" false)
        [("app", Proxy.mk "app" 0)] 1) ∧
    SimpleLogger.error (RootState.mk (FileHandle.mk "old line\n" "" false)
        [("app", Proxy.mk "app" 0)] 1) sampleNow "boom" Option.none =
      .ok (RootState.mk
        (FileHandle.mk "old line\n[2024-01-02 03:04:05] app.ERROR: boom [] []\n" "" false)
        [("app", Proxy.mk "app" 0)] 1) ∧
    SimpleLogger.init (DiskFile.mk false "" false true) = .error PyErr.oserror := by
  have h := c7_construction (DiskFile.mk true "old line\n" true true) sampleNow "boom"
  have h2 := c7_construction (DiskFile.mk false "" false true) sampleNow "boom"
  exact ⟨h.1 rfl rfl rfl, by rw [h.2.2.2]; rfl, h2.2.2.1 (Or.inl rfl)⟩

/-- Claim C8: a `write` after the file has been closed fails with the
closed-file I/O error (`ValueError`), and a `write` whose context cannot
be rendered to JSON fails with the serialization error (`TypeError`); in
both cases the error is the direct result of the call — no retry, no
fallback, no swallowing. -/
theorem c8_error_propagation (s : RootState) (now : DateTime)
    (channel level message : String) (context extra : Option PyVal) (cj : String) :
    (s.fp.closed = true → jsonDumps (orEmptyList context) = some cj →
      SimpleLogger.write s now channel level message context extra =
        .error PyErr.valueError) ∧
    (jsonDumps (orEmptyList context) = Option.none →
      SimpleLogger.write s now channel level message context extra =
        .error PyErr.typeError) := by
  constructor
  · intro hc hj
    simp [SimpleLogger.write, hj, FileHandle.writeStr, hc]
  · intro hj
    simp [SimpleLogger.write, hj]

theorem c8_witness :
    SimpleLogger.write stClosed sampleNow "app" "INFO" "m" Option.none Option.none =
      .error PyErr.valueError ∧
    SimpleLogger.write stApp sampleNow "app" "INFO" "m" (some badCtx) Option.none =
      .error PyErr.typeError :=
  ⟨(c8_error_propagation stClosed sampleNow "app" "INFO" "m" Option.none Option.none
      "[]").1 rfl rfl,
   (c8_error_propagation stApp sampleNow "app" "INFO" "m" (some badCtx) Option.none
      "[]").2 rfl⟩

/-- Claim C9 evidence: `SimpleLogger.__del__` deletes registry keys while
iterating the dict, so on the always-nonempty registry it removes only
the first entry and raises `RuntimeError` — teardown does not complete
without error and, with a second channel registered, not every entry is
released; the proxy's `__del__` alone is a true no-op. -/
theorem c9_del_raises_runtime_error :
    SimpleLogger.del stApp =
      (RootState.mk (FileHandle.mk "" "" true) [] 1, some PyErr.runtimeError) ∧
    (SimpleLogger.del (RootState.mk (FileHandle.mk "" "" false)
        [("app", Proxy.mk "app" 0), ("db", Proxy.mk "db" 1)] 2)).1.proxyRegistry =
      [("db", Proxy.mk "db" 1)] ∧
    (SimpleLogger.del (RootState.mk (FileHandle.mk "" "" false)
        [("app", Proxy.mk "app" 0), ("db", Proxy.mk "db" 1)] 2)).2 =
      some PyErr.runtimeError ∧
    SimpleLoggerProxy.del (Proxy.mk "app" 0) = Option.none :=
  ⟨rfl, rfl, rfl, rfl⟩

/-- Claim C10 counterexample: calling the inherited `write` directly on a
proxy with a non-JSON-serializable context raises the serialization
`TypeError` (from `json.dumps`, evaluated while building the log entry)
and never reaches the missing `fp` attribute — so "fails with an
attribute error for every input" is false as stated. -/
theorem c10_counterexample :
    SimpleLoggerProxy.write (Proxy.mk "db" 1) sampleNow "db" "ERROR" "m"
      (some badCtx) Option.none = .error PyErr.typeError ∧
    SimpleLoggerProxy.write (Proxy.mk "db" 1) sampleNow "db" "ERROR" "m"
      (some badCtx) Option.none ≠ .error PyErr.attributeError :=
  ⟨rfl, fun h => PyErr.noConfusion (Except.error.inj h)⟩

/-- Claim C10 (amended): for every input whose context is
JSON-serializable, invoking the inherited `write` directly on a proxy
fails with `AttributeError`, because the proxy's constructor never set
the `fp` attribute the method body dereferences after formatting. -/
theorem c10_proxy_write_attribute_error (self : Proxy) (now : DateTime)
    (channel level message : String) (context extra : Option PyVal) (cj : String)
    (hctx : jsonDumps (orEmptyList context) = some cj) :
    SimpleLoggerProxy.write self now channel level message context extra =
      .error PyErr.attributeError := by
  simp [SimpleLoggerProxy.write, hctx]

theorem c10_witness :
    SimpleLoggerProxy.write (Proxy.mk "db" 1) sampleNow "db" "ERROR" "m"
      Option.none Option.none = .error PyErr.attributeError :=
  c10_proxy_write_attribute_error (Proxy.mk "db" 1) sampleNow "db" "ERROR" "m"
    Option.none Option.none "[]" rfl
